import Mathlib

/-!
# Verification of the SSR effect core

A shallow embedding, in Lean 4, of the screen-space-reflections effect:

* `src/unnamed/part_000` (`SSREffect`): the reactive configuration layer
  (`makeOptionsReactive`), the deduplicated sizing policy (`setSize`) and the
  box-projected environment-map fallback.
* `src/src/ComposeReflectionsPass.js`: the temporal-resolve fragment shader
  (the `TEMPORAL_RESOLVE` branch of `main`).

JavaScript numbers are modelled exactly over `ℚ`, with dedicated constructors
for `undefined` and `NaN` so that strict equality (`===`) keeps its JavaScript
semantics (`NaN === NaN` is false).  GLSL float arithmetic is likewise modelled
exactly over `ℚ`; the single irrational operation, `length(v) < c`, is encoded
by the equivalent comparison of squares (both sides are nonnegative).
-/

/-- A JavaScript value as it flows through the reactive option setters:
`undefined`, `NaN`, a (finite) number, a boolean or a string. -/
inductive JSValue where
  | undef : JSValue
  | nan : JSValue
  | num : ℚ → JSValue
  | bool : Bool → JSValue
  | str : String → JSValue
deriving DecidableEq, Repr

/-- JavaScript strict equality `===`: structural on `undefined`, numbers,
booleans and strings; `NaN` is not `===` to anything, itself included. -/
def jsStrictEq : JSValue → JSValue → Bool
  | JSValue.nan, _ => false
  | _, JSValue.nan => false
  | JSValue.undef, JSValue.undef => true
  | JSValue.num a, JSValue.num b => a = b
  | JSValue.bool a, JSValue.bool b => a = b
  | JSValue.str a, JSValue.str b => a = b
  | _, _ => false

/-- JavaScript truthiness, used by the `ALLOW_MISSED_RAYS` case
(`if (value) ... else ...`). -/
def jsTruthy : JSValue → Bool
  | JSValue.undef => false
  | JSValue.nan => false
  | JSValue.num q => !(q = 0 : Bool)
  | JSValue.bool b => b
  | JSValue.str s => !s.isEmpty

/-- Truncation toward zero of a rational, the numeric core of `parseInt`. -/
def jsTrunc (q : ℚ) : ℤ :=
  if 0 ≤ q then ⌊q⌋ else ⌈q⌉

/-- `parseInt(value)` restricted to the values the effect feeds it: a number
is truncated toward zero, anything non-numeric yields `NaN`. -/
def jsParseInt : JSValue → JSValue
  | JSValue.num q => JSValue.num (jsTrunc q)
  | _ => JSValue.nan

/-- `Math.round(value)`: round half toward positive infinity on numbers,
`NaN` otherwise. -/
def jsRound : JSValue → JSValue
  | JSValue.num q => JSValue.num (⌊q + 1/2⌋ : ℤ)
  | _ => JSValue.nan

/-- `value * dpr` for a rational device-pixel ratio: numbers multiply,
booleans coerce to `0`/`1` as in JavaScript, anything else yields `NaN`. -/
def jsMul (v : JSValue) (dpr : ℚ) : JSValue :=
  match v with
  | JSValue.num q => JSValue.num (q * dpr)
  | JSValue.bool b => JSValue.num ((if b then 1 else 0) * dpr)
  | _ => JSValue.nan

/-- A value `v` is not `NaN` exactly when it is `===` to itself. -/
def notNaN (v : JSValue) : Prop := jsStrictEq v v = true

/- Option keys of the reactive configuration surface (string literals of the
`switch` in `SSREffect.makeOptionsReactive`). -/

def kWidth : String := "width"

def kHeight : String := "height"

def kResolutionScale : String := "resolutionScale"

def kVelocityResolutionScale : String := "velocityResolutionScale"

def kBlurMix : String := "blurMix"

def kBlurSharpness : String := "blurSharpness"

def kBlurKernelSize : String := "blurKernelSize"

def kMaxSteps : String := "MAX_STEPS"

def kNumBinarySearchSteps : String := "NUM_BINARY_SEARCH_STEPS"

def kAllowMissedRays : String := "ALLOW_MISSED_RAYS"

def kClampRadius : String := "CLAMP_RADIUS"

def kTemporalResolveMix : String := "temporalResolveMix"

def kTemporalResolveCorrection : String := "temporalResolveCorrection"

def kColorExponent : String := "colorExponent"

/-- `noResetSamplesProperties`: "all the properties for which we don't have to
resample" (`src/unnamed/part_000`, line 18). -/
def noResetSamplesProperties : List String := [kBlurMix, kBlurSharpness, kBlurKernelSize]

/-- The keys carrying a dedicated `case` label in the `switch` of
`makeOptionsReactive`. -/
def switchCaseKeys : List String :=
  [kResolutionScale, kVelocityResolutionScale, kWidth, kHeight, kBlurMix,
   kBlurSharpness, kBlurKernelSize, kMaxSteps, kNumBinarySearchSteps,
   kAllowMissedRays, kClampRadius, kTemporalResolveMix,
   kTemporalResolveCorrection, kColorExponent]

/-- The two sub-passes a resize is propagated to. -/
inductive SubPass where
  | temporalResolve : SubPass
  | reflections : SubPass
deriving DecidableEq, Repr

/-- One buffer-reallocating `setSize` call propagated to a sub-pass.
Modelled from the spec: `TemporalResolvePass.setSize` and
`ReflectionsPass.setSize` are not under `src/`; per the spec they reallocate
that pass's buffers, recorded here as an event. -/
structure ResizeEvent where
  target : SubPass
  width : JSValue
  height : JSValue
deriving DecidableEq, Repr

/-- `this.lastSize`: the last-applied size snapshot used to deduplicate
resize work. -/
structure SizeSnapshot where
  width : JSValue
  height : JSValue
  resolutionScale : JSValue
  velocityResolutionScale : JSValue
deriving DecidableEq, Repr

/-- The observable state of one `SSREffect` instance, as far as the reactive
configuration layer reaches it: the backing `options` record, the closure
variable `needsUpdate`, the sample counter, the size snapshot, the log of
resize propagations, and the uniforms / defines written by the `switch`. -/
structure SSRState where
  /-- the `options` object captured by the reactive accessors -/
  options : String → JSValue
  /-- the `needsUpdate` closure variable (`false` during initialisation) -/
  needsUpdate : Bool
  /-- `SampleCount` (the `samples` counter reset by the setter preamble) -/
  samples : ℕ
  /-- `this.lastSize` -/
  lastSize : SizeSnapshot
  /-- log of resizes propagated to the sub-passes -/
  resizeLog : List ResizeEvent
  /-- uniform `blurMix` of the final material -/
  blurMixU : JSValue
  /-- uniform `blurSharpness` of the final material -/
  blurSharpnessU : JSValue
  /-- uniform `blurKernelSize` of the final material -/
  blurKernelSizeU : JSValue
  /-- `temporalResolvePass.velocityResolutionScale` -/
  trVelocityResolutionScale : JSValue
  /-- uniform `temporalResolveMix` of the temporal-resolve material -/
  trTemporalResolveMixU : JSValue
  /-- uniform `temporalResolveCorrection` of the temporal-resolve material -/
  trTemporalResolveCorrectionU : JSValue
  /-- uniform `colorExponent` of the temporal-resolve material -/
  trColorExponentU : JSValue
  /-- define `CLAMP_RADIUS` of the temporal-resolve material -/
  trClampRadiusD : JSValue
  /-- `needsUpdate` flag of the temporal-resolve material -/
  trMaterialRecompile : Bool
  /-- define `MAX_STEPS` of the reflections material -/
  reflMaxStepsD : JSValue
  /-- define `NUM_BINARY_SEARCH_STEPS` of the reflections material -/
  reflNumBinarySearchStepsD : JSValue
  /-- presence of the define `ALLOW_MISSED_RAYS` on the reflections material -/
  reflAllowMissedRaysD : Bool
  /-- `needsUpdate` flag of the reflections material -/
  reflMaterialRecompile : Bool
  /-- names of the uniforms declared by the reflections material -/
  reflUniformKeys : List String
  /-- values of the uniforms of the reflections material -/
  reflUniforms : String → JSValue

/-- `SSREffect.setSize(width, height, force = false)`
(`src/unnamed/part_000`, lines 190-209): a no-op unless `force` is set or one
of width, height, `this.resolutionScale`, `this.velocityResolutionScale`
differs (by `===`) from `this.lastSize`; otherwise propagates the resize to
the temporal-resolve and reflections passes and records the new snapshot.
`this.resolutionScale` / `this.velocityResolutionScale` are the reactive
getters, i.e. reads of `options`. -/
def setSize (s : SSRState) (width height : JSValue) (force : Bool) : SSRState :=
  if !force && jsStrictEq width s.lastSize.width
      && jsStrictEq height s.lastSize.height
      && jsStrictEq (s.options kResolutionScale) s.lastSize.resolutionScale
      && jsStrictEq (s.options kVelocityResolutionScale) s.lastSize.velocityResolutionScale then
    s
  else
    { s with
      resizeLog := s.resizeLog ++
        [⟨SubPass.temporalResolve, width, height⟩, ⟨SubPass.reflections, width, height⟩],
      lastSize :=
        ⟨width, height, s.options kResolutionScale, s.options kVelocityResolutionScale⟩ }

/-- The `case` labels of the `switch (key)` in the reactive setter, plus the
`default` label. -/
inductive SwitchCase where
  | resolutionScale | velocityResolutionScale | widthCase | heightCase
  | blurMixCase | blurSharpnessCase | blurKernelSizeCase
  | maxSteps | numBinarySearchSteps | allowMissedRays | clampRadius
  | temporalResolveMixCase | temporalResolveCorrectionCase | colorExponentCase
  | defaultCase
deriving DecidableEq, Repr

/-- Which `case` label of the `switch (key)` a key selects. -/
def classifyKey (key : String) : SwitchCase :=
  if key = kResolutionScale then SwitchCase.resolutionScale
  else if key = kVelocityResolutionScale then SwitchCase.velocityResolutionScale
  else if key = kWidth then SwitchCase.widthCase
  else if key = kHeight then SwitchCase.heightCase
  else if key = kBlurMix then SwitchCase.blurMixCase
  else if key = kBlurSharpness then SwitchCase.blurSharpnessCase
  else if key = kBlurKernelSize then SwitchCase.blurKernelSizeCase
  else if key = kMaxSteps then SwitchCase.maxSteps
  else if key = kNumBinarySearchSteps then SwitchCase.numBinarySearchSteps
  else if key = kAllowMissedRays then SwitchCase.allowMissedRays
  else if key = kClampRadius then SwitchCase.clampRadius
  else if key = kTemporalResolveMix then SwitchCase.temporalResolveMixCase
  else if key = kTemporalResolveCorrection then SwitchCase.temporalResolveCorrectionCase
  else if key = kColorExponent then SwitchCase.colorExponentCase
  else SwitchCase.defaultCase

/-- The `switch (key)` of the reactive setter (`src/unnamed/part_000`,
lines 103-179), applied after the preamble.  Each `case` is one branch; the
`default` writes a uniform of the reflections material when one of that name
exists.  The `.needsUpdate = needsUpdate` assignments copy the closure
variable, exactly as the source does. -/
def applyCase (dpr : ℚ) (s : SSRState) (key : String) (value : JSValue) : SSRState :=
  match classifyKey key with
  | SwitchCase.resolutionScale =>
    setSize s (s.options kWidth) (s.options kHeight) false
  | SwitchCase.velocityResolutionScale =>
    setSize { s with trVelocityResolutionScale := value }
      (s.options kWidth) (s.options kHeight) true
  | SwitchCase.widthCase =>
    if jsStrictEq value JSValue.undef then s
    else setSize s (jsMul value dpr) (s.options kHeight) false
  | SwitchCase.heightCase =>
    if jsStrictEq value JSValue.undef then s
    else setSize s (s.options kWidth) (jsMul value dpr) false
  | SwitchCase.blurMixCase =>
    { s with blurMixU := value }
  | SwitchCase.blurSharpnessCase =>
    { s with blurSharpnessU := value }
  | SwitchCase.blurKernelSizeCase =>
    { s with blurKernelSizeU := value }
  | SwitchCase.maxSteps =>
    { s with reflMaxStepsD := jsParseInt value, reflMaterialRecompile := s.needsUpdate }
  | SwitchCase.numBinarySearchSteps =>
    { s with reflNumBinarySearchStepsD := jsParseInt value,
             reflMaterialRecompile := s.needsUpdate }
  | SwitchCase.allowMissedRays =>
    { s with reflAllowMissedRaysD := jsTruthy value, reflMaterialRecompile := s.needsUpdate }
  | SwitchCase.clampRadius =>
    { s with trClampRadiusD := jsRound value, trMaterialRecompile := s.needsUpdate }
  | SwitchCase.temporalResolveMixCase =>
    { s with trTemporalResolveMixU := value }
  | SwitchCase.temporalResolveCorrectionCase =>
    { s with trTemporalResolveCorrectionU := value }
  | SwitchCase.colorExponentCase =>
    { s with trColorExponentU := value }
  | SwitchCase.defaultCase =>
    if key ∈ s.reflUniformKeys then
      { s with reflUniforms := Function.update s.reflUniforms key value }
    else
      s

/-- The reactive setter installed by `makeOptionsReactive` for every option
key (`src/unnamed/part_000`, lines 93-180): early return when the value is
`===` to the stored one and `needsUpdate` is set; otherwise store the value,
and - unless the key is in `noResetSamplesProperties` - reset `samples` to 0
and force a resize with the (already updated) `options.width` /
`options.height`; finally run the `switch`. -/
def setOption (dpr : ℚ) (s : SSRState) (key : String) (value : JSValue) : SSRState :=
  if jsStrictEq (s.options key) value && s.needsUpdate then
    s
  else
    let s1 : SSRState := { s with options := Function.update s.options key value }
    let s2 : SSRState :=
      if key ∈ noResetSamplesProperties then s1
      else setSize { s1 with samples := 0 } (s1.options kWidth) (s1.options kHeight) true
    applyCase dpr s2 key value

/- ## Temporal-resolve fragment shader (`src/src/ComposeReflectionsPass.js`) -/

/-- A GLSL `vec2` (UV coordinates, velocity), with exact rational
components. -/
structure GVec2 where
  u : ℚ
  v : ℚ
deriving DecidableEq, Repr

/-- A GLSL `vec3` (an RGB color). -/
structure GVec3 where
  x : ℚ
  y : ℚ
  z : ℚ
deriving DecidableEq, Repr

/-- A GLSL `vec4` texel: RGB color plus alpha (the confidence channel). -/
structure GVec4 where
  r : ℚ
  g : ℚ
  b : ℚ
  a : ℚ
deriving DecidableEq, Repr

/-- The `.rgb` swizzle of a texel. -/
def GVec4.rgb (t : GVec4) : GVec3 := ⟨t.r, t.g, t.b⟩

/-- Componentwise sum of two colors. -/
def addV3 (v w : GVec3) : GVec3 := ⟨v.x + w.x, v.y + w.y, v.z + w.z⟩

/-- GLSL `mix(x, y, a) = x * (1 - a) + y * a` on scalars. -/
def mix1 (x y a : ℚ) : ℚ := x * (1 - a) + y * a

/-- GLSL `mix` applied componentwise to colors. -/
def mix3 (v w : GVec3) (a : ℚ) : GVec3 := ⟨mix1 v.x w.x a, mix1 v.y w.y a, mix1 v.z w.z a⟩

/-- GLSL `length(v) < c` for a nonnegative bound `c`, encoded as the
equivalent comparison of squares: `length(v) < c ↔ dot(v, v) < c * c`
(both sides of the original comparison are nonnegative, and squaring is
strictly monotone there). -/
def length3Lt (v : GVec3) (c : ℚ) : Bool :=
  v.x * v.x + v.y * v.y + v.z * v.z < c * c

/-- The shader's `#define EULER 2.718281828459045`, written as its exact
rational value (decimal literals are kept irreducible by the library, so the
fraction form is used throughout for computability). -/
def EULER : ℚ := 2718281828459045 / 1000000000000000

/-- The temporal blend weight: `float mixVal = 1. / samples; mixVal /= EULER;`
(`src/src/ComposeReflectionsPass.js`, lines 50-51). -/
def tempBlendWeight (samples : ℚ) : ℚ := 1 / samples / EULER

/-- The UV at which the previous accumulation buffer is reprojected:
`vUv - texture2D(velocityBuffer, vUv).xy`. -/
def reprojectedUv (velocityBuffer : GVec2 → GVec2) (uv : GVec2) : GVec2 :=
  ⟨uv.u - (velocityBuffer uv).u, uv.v - (velocityBuffer uv).v⟩

/-- The averaged previous color the shader blends against:
`lastFrameReflectionsTexel.rgb` after
`lastFrameReflectionsTexel.rgb += lastFrameReflectionsProjectedTexel.rgb;
lastFrameReflectionsTexel.rgb /= 2.;`. -/
def avgPrevColor (lastBuffer : GVec2 → GVec4) (velocityBuffer : GVec2 → GVec2)
    (uv : GVec2) : GVec3 :=
  let lastTexel := lastBuffer uv
  let projTexel := lastBuffer (reprojectedUv velocityBuffer uv)
  ⟨(lastTexel.r + projTexel.r) / 2, (lastTexel.g + projTexel.g) / 2,
   (lastTexel.b + projTexel.b) / 2⟩

/-- `main` of the compose-reflections fragment shader, `TEMPORAL_RESOLVE`
branch (`src/src/ComposeReflectionsPass.js`, lines 40-63), for one fragment at
`uv`: reproject and average the history, blend with weight
`1 / samples / EULER`, override with the disocclusion recovery when the
averaged history color has `length < 0.001`, and blend the confidence channel
from the *unaveraged* history alpha against `inputTexel.a + 0.5`. -/
def composeTemporal (inputBuffer lastBuffer : GVec2 → GVec4)
    (velocityBuffer : GVec2 → GVec2) (samples : ℚ) (uv : GVec2) : GVec4 :=
  let inputTexel := inputBuffer uv
  let lastTexel := lastBuffer uv
  let avg := avgPrevColor lastBuffer velocityBuffer uv
  let mixVal := tempBlendWeight samples
  let newColor :=
    if length3Lt avg (1/1000) then mix3 avg (addV3 avg inputTexel.rgb) (1/4)
    else mix3 avg inputTexel.rgb mixVal
  let blurMixA := mix1 lastTexel.a (inputTexel.a + 1/2) mixVal
  ⟨newColor.x, newColor.y, newColor.z, blurMixA⟩

/-- `main` of the compose-reflections fragment shader when
`TEMPORAL_RESOLVE` is not defined: the current texel passes through
unchanged. -/
def composeNonTemporal (inputBuffer : GVec2 → GVec4) (uv : GVec2) : GVec4 :=
  inputBuffer uv

/- ## Box-projected environment-map fallback (`src/unnamed/part_000`,
lines 211-253) -/

/-- A position or box size (`THREE.Vector3`), exact rational components. -/
structure V3 where
  x : ℚ
  y : ℚ
  z : ℚ
deriving DecidableEq, Repr

/-- The filtered cubemap produced by `generateBoxProjectedEnvMapFallback`.
Modelled from the spec: `CubeCamera.update`, `PMREMGenerator.fromCubemap` and
`setupEnvMap` are not under `src/`; per the spec the generated environment
map is the filtered cubemap rendered from the scene at `position` with the
given resolution, so it is determined by those inputs. -/
structure FilteredEnvMap where
  scene : ℕ
  position : V3
  resolution : ℕ
deriving DecidableEq, Repr

/-- The state touched by `generateBoxProjectedEnvMapFallback` /
`deleteeBoxProjectedEnvMapFallback`.  Modelled from the spec: the ray
marcher's fragment-shader text and `useBoxProjectedEnvMap` are not under
`src/` (the spec keeps shader source text out of scope), so the patch that
`generate...` applies (`useBoxProjectedEnvMap` plus the two string
`replace`s) and that `deleteeBoxProjectedEnvMapFallback` reverts is modelled
as a Boolean `shaderPatched` flag. -/
structure EnvFallbackState where
  /-- identifier of the scene the cube camera renders -/
  scene : ℕ
  /-- resolution of `cubeCamera.renderTarget` -/
  cubeRenderTargetSize : ℕ
  /-- position of the cube camera -/
  cubeCameraPosition : V3
  /-- whether the box-projection patch is applied to the marcher's shader -/
  shaderPatched : Bool
  /-- presence of the define `BOX_PROJECTED_ENV_MAP` -/
  boxDefine : Bool
  /-- uniform `envMap` of the reflections material -/
  envMapU : Option FilteredEnvMap
  /-- uniform `envMapPosition` of the reflections material -/
  envMapPositionU : V3
  /-- uniform `envMapSize` of the reflections material -/
  envMapSizeU : V3
  /-- `needsUpdate` flag of the reflections material -/
  materialRecompile : Bool
  /-- the read-only `usingBoxProjectedEnvMap` flag -/
  usingBoxProjectedEnvMap : Bool
deriving DecidableEq, Repr

/-- `SSREffect.generateBoxProjectedEnvMapFallback(renderer, position, size,
envMapSize)` (`src/unnamed/part_000`, lines 211-242): reallocate the cube
render target at `envMapSize`, move the cube camera to `position`, render and
filter the scene into a cubemap, apply the box-projection shader patch
(`useBoxProjectedEnvMap` plus the `worldPos` rewrites - modelled from the
spec as setting `shaderPatched` and the define, and as marking the material
for recompilation via `setupEnvMap`), write the `envMapPosition` /
`envMapSize` uniforms, bind the filtered map, and set
`usingBoxProjectedEnvMap`. -/
def generateBoxProjectedEnvMapFallback (s : EnvFallbackState)
    (position size : V3) (envMapSize : ℕ) : EnvFallbackState :=
  { s with
    cubeRenderTargetSize := envMapSize,
    cubeCameraPosition := position,
    shaderPatched := true,
    boxDefine := true,
    envMapU := some ⟨s.scene, position, envMapSize⟩,
    envMapPositionU := position,
    envMapSizeU := size,
    materialRecompile := true,
    usingBoxProjectedEnvMap := true }

/-- `SSREffect.deleteeBoxProjectedEnvMapFallback()` (`src/unnamed/part_000`,
lines 244-253): clear the `envMap` uniform, revert the shader patch (the
reverse `replace`, modelled from the spec as clearing `shaderPatched`),
delete the `BOX_PROJECTED_ENV_MAP` define, mark the material for
recompilation and clear `usingBoxProjectedEnvMap`. -/
def deleteeBoxProjectedEnvMapFallback (s : EnvFallbackState) : EnvFallbackState :=
  { s with
    envMapU := none,
    shaderPatched := false,
    boxDefine := false,
    materialRecompile := true,
    usingBoxProjectedEnvMap := false }

/- ## Helper lemmas -/

theorem setSize_samples (s : SSRState) (w h : JSValue) (f : Bool) :
    (setSize s w h f).samples = s.samples := by
  unfold setSize; split <;> rfl

theorem setSize_forced_log (s : SSRState) (w h : JSValue) :
    (setSize s w h true).resizeLog =
      s.resizeLog ++ [⟨SubPass.temporalResolve, w, h⟩, ⟨SubPass.reflections, w, h⟩] := by
  unfold setSize; simp

theorem setSize_log_le (s : SSRState) (w h : JSValue) (f : Bool) :
    s.resizeLog.length ≤ (setSize s w h f).resizeLog.length := by
  unfold setSize; split
  · exact le_refl _
  · simp

theorem applyCase_samples (dpr : ℚ) (s : SSRState) (key : String) (value : JSValue) :
    (applyCase dpr s key value).samples = s.samples := by
  cases h : classifyKey key <;> simp only [applyCase, h] <;>
    first
      | rfl
      | exact setSize_samples _ _ _ _
      | (split <;> first | rfl | exact setSize_samples _ _ _ _)

theorem setSize_log_le_of_eq (s t : SSRState) (w h : JSValue) (f : Bool)
    (hts : t.resizeLog = s.resizeLog) :
    s.resizeLog.length ≤ (setSize t w h f).resizeLog.length := by
  rw [← hts]; exact setSize_log_le t w h f

theorem applyCase_log_le (dpr : ℚ) (s : SSRState) (key : String) (value : JSValue) :
    s.resizeLog.length ≤ (applyCase dpr s key value).resizeLog.length := by
  cases h : classifyKey key <;> simp only [applyCase, h] <;>
    first
      | exact le_refl _
      | exact setSize_log_le_of_eq _ _ _ _ _ rfl
      | (split <;> first | exact le_refl _ | exact setSize_log_le_of_eq _ _ _ _ _ rfl)

/-- A concrete post-construction effect state (`needsUpdate` already `true`,
every option set to the number 1, five samples accumulated, empty resize
log), used by witnesses and counterexamples. -/
def exState : SSRState :=
  { options := fun _ => JSValue.num 1,
    needsUpdate := true,
    samples := 5,
    lastSize := ⟨JSValue.num 1, JSValue.num 1, JSValue.num 1, JSValue.num 1⟩,
    resizeLog := [],
    blurMixU := JSValue.num 0,
    blurSharpnessU := JSValue.num 0,
    blurKernelSizeU := JSValue.num 0,
    trVelocityResolutionScale := JSValue.num 1,
    trTemporalResolveMixU := JSValue.num 0,
    trTemporalResolveCorrectionU := JSValue.num 0,
    trColorExponentU := JSValue.num 0,
    trClampRadiusD := JSValue.num 0,
    trMaterialRecompile := false,
    reflMaxStepsD := JSValue.num 20,
    reflNumBinarySearchStepsD := JSValue.num 5,
    reflAllowMissedRaysD := false,
    reflMaterialRecompile := false,
    reflUniformKeys := [],
    reflUniforms := fun _ => JSValue.undef }

/- ## Claim C10 -/

/-- Claim C10: after construction (`needsUpdate = true`), assigning to any
reactive configuration key a value strictly equal (`===`) to its current
value returns immediately with no observable effect: the state is unchanged,
so `SampleCount` is not reset, no resize occurs, and no uniform or define is
written - including for keys outside the no-reset allow-list. -/
theorem setOption_same_value_noop (dpr : ℚ) (s : SSRState) (key : String)
    (value : JSValue) (hinit : s.needsUpdate = true)
    (heq : jsStrictEq (s.options key) value = true) :
    setOption dpr s key value = s := by
  unfold setOption
  rw [heq, hinit]
  rfl

/-- Witness for C10 at a concrete state. -/
theorem setOption_same_value_noop_witness :
    setOption 1 exState kWidth (JSValue.num 1) = exState :=
  setOption_same_value_noop 1 exState kWidth (JSValue.num 1) rfl (by decide)

/- ## Claim C6 -/

/-- Claim C6: `setSize(width, height, force)` is a no-op when `force` is
false and width, height, `resolutionScale` and `velocityResolutionScale` all
equal (`===`) the last recorded `SizeSnapshot`; with `force = true` it always
propagates the resize to both sub-passes and records a new `SizeSnapshot`,
whether or not any value changed. -/
theorem setSize_dedupes_and_force_propagates :
    (∀ (s : SSRState) (w h : JSValue),
      jsStrictEq w s.lastSize.width = true →
      jsStrictEq h s.lastSize.height = true →
      jsStrictEq (s.options kResolutionScale) s.lastSize.resolutionScale = true →
      jsStrictEq (s.options kVelocityResolutionScale) s.lastSize.velocityResolutionScale
        = true →
      setSize s w h false = s) ∧
    (∀ (s : SSRState) (w h : JSValue),
      (setSize s w h true).resizeLog =
        s.resizeLog ++
          [⟨SubPass.temporalResolve, w, h⟩, ⟨SubPass.reflections, w, h⟩] ∧
      (setSize s w h true).lastSize =
        ⟨w, h, s.options kResolutionScale, s.options kVelocityResolutionScale⟩) := by
  constructor
  · intro s w h h1 h2 h3 h4
    unfold setSize
    rw [h1, h2, h3, h4]
    rfl
  · intro s w h
    unfold setSize
    simp

/-- Witness for C6: at a concrete state, the unforced second call is the
identity and the forced call appends exactly one resize per sub-pass. -/
theorem setSize_dedupes_and_force_propagates_witness :
    setSize exState (JSValue.num 1) (JSValue.num 1) false = exState ∧
    (setSize exState (JSValue.num 2) (JSValue.num 3) true).resizeLog =
      [⟨SubPass.temporalResolve, JSValue.num 2, JSValue.num 3⟩,
       ⟨SubPass.reflections, JSValue.num 2, JSValue.num 3⟩] :=
  ⟨setSize_dedupes_and_force_propagates.1 exState (JSValue.num 1) (JSValue.num 1)
      (by decide) (by decide) (by decide) (by decide),
   by
    rw [(setSize_dedupes_and_force_propagates.2 exState
      (JSValue.num 2) (JSValue.num 3)).1]
    rfl⟩

/- ## Claim C4 -/

/-- Counterexample to C4 as stated: `MAX_STEPS` is outside the no-reset
allow-list, yet assigning to it the value it already holds (after
initialisation) leaves `SampleCount` at 5 and performs no resize, because
the setter returns early on strictly equal values. -/
theorem setOption_counterexample_same_value :
    kMaxSteps ∉ noResetSamplesProperties ∧
    exState.options kMaxSteps = JSValue.num 1 ∧
    exState.samples = 5 ∧
    ¬((setOption 1 exState kMaxSteps (JSValue.num 1)).samples = 0 ∧
      exState.resizeLog.length <
        (setOption 1 exState kMaxSteps (JSValue.num 1)).resizeLog.length) := by
  refine ⟨by decide, rfl, rfl, ?_⟩
  intro hc
  have : (setOption 1 exState kMaxSteps (JSValue.num 1)).samples = 5 := by decide
  rw [this] at hc
  exact absurd hc.1 (by decide)

/-- Claim C4 (amended): for every configuration key outside
{blurMix, blurSharpness, blurKernelSize}, assigning a value that is not
strictly equal to the key's current one (or assigning before reactive
initialisation completes) sets `SampleCount` to 0 immediately and invokes
`setSize` with `force = true`, so a resize reaches both sub-passes even when
all dimensions are unchanged. -/
theorem setOption_resets_samples_and_forces_resize (dpr : ℚ) (s : SSRState)
    (key : String) (value : JSValue)
    (hkey : key ∉ noResetSamplesProperties)
    (hchange : (jsStrictEq (s.options key) value && s.needsUpdate) = false) :
    (setOption dpr s key value).samples = 0 ∧
    s.resizeLog.length + 2 ≤ (setOption dpr s key value).resizeLog.length := by
  unfold setOption
  rw [hchange]
  simp only [Bool.false_eq_true, if_false, hkey, ite_false]
  constructor
  · rw [applyCase_samples, setSize_samples]
  · have hlog := applyCase_log_le dpr
      (setSize { s with options := Function.update s.options key value, samples := 0 }
        (Function.update s.options key value kWidth)
        (Function.update s.options key value kHeight) true) key value
    rw [setSize_forced_log] at hlog
    simpa using hlog

/-- Witness for C4 (amended) at a concrete state and a changed value. -/
theorem setOption_resets_samples_and_forces_resize_witness :
    (setOption 1 exState kMaxSteps (JSValue.num 30)).samples = 0 ∧
    exState.resizeLog.length + 2 ≤
      (setOption 1 exState kMaxSteps (JSValue.num 30)).resizeLog.length :=
  setOption_resets_samples_and_forces_resize 1 exState kMaxSteps (JSValue.num 30)
    (by decide) (by decide)

/- ## Claim C5 -/

theorem classifyKey_blurMix : classifyKey kBlurMix = SwitchCase.blurMixCase := by decide

theorem classifyKey_blurSharpness :
    classifyKey kBlurSharpness = SwitchCase.blurSharpnessCase := by decide

theorem classifyKey_blurKernelSize :
    classifyKey kBlurKernelSize = SwitchCase.blurKernelSizeCase := by decide

/-- The final-material uniform matching an allow-list key. -/
def blurUniformOf (s : SSRState) (key : String) : JSValue :=
  if key = kBlurMix then s.blurMixU
  else if key = kBlurSharpness then s.blurSharpnessU
  else s.blurKernelSizeU

/-- Claim C5: for every key in {blurMix, blurSharpness, blurKernelSize},
assigning a value writes only the corresponding shader uniform:
`SampleCount` is unchanged, no resize is propagated, the size snapshot,
the other blur uniforms and every other uniform and define are untouched,
and (except for the strictly-equal early return) the matching uniform
receives the assigned value. -/
theorem setOption_allow_list_writes_only_uniform (dpr : ℚ) (s : SSRState)
    (key : String) (value : JSValue) (hkey : key ∈ noResetSamplesProperties) :
    (setOption dpr s key value).samples = s.samples ∧
    (setOption dpr s key value).resizeLog = s.resizeLog ∧
    (setOption dpr s key value).lastSize = s.lastSize ∧
    (setOption dpr s key value).trVelocityResolutionScale = s.trVelocityResolutionScale ∧
    (setOption dpr s key value).trTemporalResolveMixU = s.trTemporalResolveMixU ∧
    (setOption dpr s key value).trTemporalResolveCorrectionU
      = s.trTemporalResolveCorrectionU ∧
    (setOption dpr s key value).trColorExponentU = s.trColorExponentU ∧
    (setOption dpr s key value).trClampRadiusD = s.trClampRadiusD ∧
    (setOption dpr s key value).trMaterialRecompile = s.trMaterialRecompile ∧
    (setOption dpr s key value).reflMaxStepsD = s.reflMaxStepsD ∧
    (setOption dpr s key value).reflNumBinarySearchStepsD = s.reflNumBinarySearchStepsD ∧
    (setOption dpr s key value).reflAllowMissedRaysD = s.reflAllowMissedRaysD ∧
    (setOption dpr s key value).reflMaterialRecompile = s.reflMaterialRecompile ∧
    (setOption dpr s key value).reflUniforms = s.reflUniforms ∧
    (∀ k, k ∈ noResetSamplesProperties → k ≠ key →
      blurUniformOf (setOption dpr s key value) k = blurUniformOf s k) ∧
    ((jsStrictEq (s.options key) value && s.needsUpdate) = false →
      blurUniformOf (setOption dpr s key value) key = value) := by
  by_cases hc : (jsStrictEq (s.options key) value && s.needsUpdate) = true
  · have e : setOption dpr s key value = s := by
      unfold setOption; rw [hc]; rfl
    rw [e]
    exact ⟨rfl, rfl, rfl, rfl, rfl, rfl, rfl, rfl, rfl, rfl, rfl, rfl, rfl, rfl,
      fun k _ _ => rfl, fun hfalse => absurd (hc.symm.trans hfalse) (by decide)⟩
  · have hc' : (jsStrictEq (s.options key) value && s.needsUpdate) = false :=
      Bool.eq_false_iff.mpr hc
    simp only [noResetSamplesProperties, List.mem_cons, List.not_mem_nil, or_false] at hkey
    rcases hkey with h | h | h <;> subst h
    · have e : setOption dpr s kBlurMix value =
          { s with options := Function.update s.options kBlurMix value,
                   blurMixU := value } := by
        unfold setOption
        rw [hc']
        simp only [Bool.false_eq_true, if_false]
        rw [if_pos (show kBlurMix ∈ noResetSamplesProperties by decide)]
        simp only [applyCase, classifyKey_blurMix]
      rw [e]
      refine ⟨rfl, rfl, rfl, rfl, rfl, rfl, rfl, rfl, rfl, rfl, rfl, rfl, rfl, rfl,
        ?_, fun _ => rfl⟩
      intro k hk hne
      simp only [noResetSamplesProperties, List.mem_cons, List.not_mem_nil,
        or_false] at hk
      rcases hk with h' | h' | h' <;> subst h' <;>
        first
          | exact absurd rfl hne
          | rfl
    · have e : setOption dpr s kBlurSharpness value =
          { s with options := Function.update s.options kBlurSharpness value,
                   blurSharpnessU := value } := by
        unfold setOption
        rw [hc']
        simp only [Bool.false_eq_true, if_false]
        rw [if_pos (show kBlurSharpness ∈ noResetSamplesProperties by decide)]
        simp only [applyCase, classifyKey_blurSharpness]
      rw [e]
      refine ⟨rfl, rfl, rfl, rfl, rfl, rfl, rfl, rfl, rfl, rfl, rfl, rfl, rfl, rfl,
        ?_, fun _ => rfl⟩
      intro k hk hne
      simp only [noResetSamplesProperties, List.mem_cons, List.not_mem_nil,
        or_false] at hk
      rcases hk with h' | h' | h' <;> subst h' <;>
        first
          | exact absurd rfl hne
          | rfl
    · have e : setOption dpr s kBlurKernelSize value =
          { s with options := Function.update s.options kBlurKernelSize value,
                   blurKernelSizeU := value } := by
        unfold setOption
        rw [hc']
        simp only [Bool.false_eq_true, if_false]
        rw [if_pos (show kBlurKernelSize ∈ noResetSamplesProperties by decide)]
        simp only [applyCase, classifyKey_blurKernelSize]
      rw [e]
      refine ⟨rfl, rfl, rfl, rfl, rfl, rfl, rfl, rfl, rfl, rfl, rfl, rfl, rfl, rfl,
        ?_, fun _ => rfl⟩
      intro k hk hne
      simp only [noResetSamplesProperties, List.mem_cons, List.not_mem_nil,
        or_false] at hk
      rcases hk with h' | h' | h' <;> subst h' <;>
        first
          | exact absurd rfl hne
          | rfl

/-- Witness for C5: setting `blurMix` to a fresh value at a concrete state
leaves samples, the resize log and the snapshot unchanged and writes the
`blurMix` uniform. -/
theorem setOption_allow_list_writes_only_uniform_witness :
    (setOption 1 exState kBlurMix (JSValue.num 7)).samples = exState.samples ∧
    (setOption 1 exState kBlurMix (JSValue.num 7)).resizeLog = exState.resizeLog ∧
    blurUniformOf (setOption 1 exState kBlurMix (JSValue.num 7)) kBlurMix
      = JSValue.num 7 := by
  obtain ⟨h1, h2, -, -, -, -, -, -, -, -, -, -, -, -, -, h3⟩ :=
    setOption_allow_list_writes_only_uniform 1 exState kBlurMix (JSValue.num 7)
      (by decide)
  exact ⟨h1, h2, h3 (by decide)⟩

/- ## Claim C7 -/

theorem classifyKey_eq_default (key : String) (h : key ∉ switchCaseKeys) :
    classifyKey key = SwitchCase.defaultCase := by
  simp only [switchCaseKeys, List.mem_cons, List.not_mem_nil, or_false, not_or] at h
  obtain ⟨h1, h2, h3, h4, h5, h6, h7, h8, h9, h10, h11, h12, h13, h14⟩ := h
  simp [classifyKey, h1, h2, h3, h4, h5, h6, h7, h8, h9, h10, h11, h12, h13, h14]

theorem noResetSubsetSwitchCase :
    ∀ k, k ∈ noResetSamplesProperties → k ∈ switchCaseKeys := by decide

/-- `setSize` with `force = true` always takes the reallocating branch. -/
theorem setSize_forced_eq (s : SSRState) (w h : JSValue) :
    setSize s w h true =
      { s with
        resizeLog := s.resizeLog ++
          [⟨SubPass.temporalResolve, w, h⟩, ⟨SubPass.reflections, w, h⟩],
        lastSize := ⟨w, h, s.options kResolutionScale,
          s.options kVelocityResolutionScale⟩ } := by
  unfold setSize
  simp

/-- A reactive key with no `switch` case and no matching uniform on the
reflections material. -/
def kUnknown : String := "SOME_UNKNOWN_KEY"

/-- Counterexample to C7 as stated: assigning a fresh value to a reactive
key with no dedicated case and no matching uniform is not effect-free - the
sample counter is reset (5 becomes 0) and a resize is propagated. -/
theorem setOption_unrecognized_counterexample :
    classifyKey kUnknown = SwitchCase.defaultCase ∧
    kUnknown ∉ exState.reflUniformKeys ∧
    exState.samples = 5 ∧
    ¬((setOption 1 exState kUnknown (JSValue.num 2)).samples = exState.samples ∧
      (setOption 1 exState kUnknown (JSValue.num 2)).resizeLog.length =
        exState.resizeLog.length) := by
  refine ⟨by decide, by decide, rfl, ?_⟩
  intro hcl
  have h0 : (setOption 1 exState kUnknown (JSValue.num 2)).samples = 0 := by decide
  exact absurd (h0.symm.trans hcl.1) (by decide)

/-- Claim C7 (amended): assigning a changed value to a reactive key that has
no dedicated `switch` case and no matching uniform on the ray marcher's
material raises no error and writes no uniform or define, but - because the
key is outside the no-reset allow-list - `SampleCount` is reset to 0 and one
forced resize is propagated to both sub-passes. -/
theorem setOption_unrecognized_resets_and_resizes (dpr : ℚ) (s : SSRState)
    (key : String) (value : JSValue)
    (hsw : key ∉ switchCaseKeys)
    (huni : key ∉ s.reflUniformKeys)
    (hchange : (jsStrictEq (s.options key) value && s.needsUpdate) = false) :
    (setOption dpr s key value).samples = 0 ∧
    (setOption dpr s key value).resizeLog.length = s.resizeLog.length + 2 ∧
    (setOption dpr s key value).blurMixU = s.blurMixU ∧
    (setOption dpr s key value).blurSharpnessU = s.blurSharpnessU ∧
    (setOption dpr s key value).blurKernelSizeU = s.blurKernelSizeU ∧
    (setOption dpr s key value).trVelocityResolutionScale = s.trVelocityResolutionScale ∧
    (setOption dpr s key value).trTemporalResolveMixU = s.trTemporalResolveMixU ∧
    (setOption dpr s key value).trTemporalResolveCorrectionU
      = s.trTemporalResolveCorrectionU ∧
    (setOption dpr s key value).trColorExponentU = s.trColorExponentU ∧
    (setOption dpr s key value).trClampRadiusD = s.trClampRadiusD ∧
    (setOption dpr s key value).trMaterialRecompile = s.trMaterialRecompile ∧
    (setOption dpr s key value).reflMaxStepsD = s.reflMaxStepsD ∧
    (setOption dpr s key value).reflNumBinarySearchStepsD
      = s.reflNumBinarySearchStepsD ∧
    (setOption dpr s key value).reflAllowMissedRaysD = s.reflAllowMissedRaysD ∧
    (setOption dpr s key value).reflMaterialRecompile = s.reflMaterialRecompile ∧
    (setOption dpr s key value).reflUniforms = s.reflUniforms := by
  have hkey : key ∉ noResetSamplesProperties := fun hin =>
    hsw (noResetSubsetSwitchCase key hin)
  have e : setOption dpr s key value =
      { s with
        options := Function.update s.options key value,
        samples := 0,
        resizeLog := s.resizeLog ++
          [⟨SubPass.temporalResolve, Function.update s.options key value kWidth,
            Function.update s.options key value kHeight⟩,
           ⟨SubPass.reflections, Function.update s.options key value kWidth,
            Function.update s.options key value kHeight⟩],
        lastSize := ⟨Function.update s.options key value kWidth,
          Function.update s.options key value kHeight,
          Function.update s.options key value kResolutionScale,
          Function.update s.options key value kVelocityResolutionScale⟩ } := by
    unfold setOption
    rw [hchange]
    simp only [Bool.false_eq_true, if_false]
    rw [if_neg hkey, setSize_forced_eq]
    simp only [applyCase, classifyKey_eq_default key hsw]
    rw [if_neg huni]
  rw [e]
  refine ⟨rfl, ?_, rfl, rfl, rfl, rfl, rfl, rfl, rfl, rfl, rfl, rfl, rfl, rfl, rfl, rfl⟩
  simp

/-- Witness for C7 (amended) at a concrete state. -/
theorem setOption_unrecognized_resets_and_resizes_witness :
    (setOption 1 exState kUnknown (JSValue.num 2)).samples = 0 ∧
    (setOption 1 exState kUnknown (JSValue.num 2)).resizeLog.length =
      exState.resizeLog.length + 2 := by
  obtain ⟨h1, h2, -⟩ :=
    setOption_unrecognized_resets_and_resizes 1 exState kUnknown (JSValue.num 2)
      (by decide) (by decide) (by decide)
  exact ⟨h1, h2⟩

/- ## Claim C8 -/

theorem classifyKey_width : classifyKey kWidth = SwitchCase.widthCase := by decide

theorem classifyKey_height : classifyKey kHeight = SwitchCase.heightCase := by decide

/-- Counterexample to C8 as stated: assigning `undefined` to `width` is not
a no-op - before the `width` case returns, the non-allow-list preamble has
already propagated a forced resize (carrying the undefined width) and reset
the sample counter. -/
theorem setOption_axis_counterexample :
    exState.resizeLog.length = 0 ∧
    exState.samples = 5 ∧
    ¬((setOption 1 exState kWidth JSValue.undef).resizeLog.length =
        exState.resizeLog.length) ∧
    (setOption 1 exState kWidth JSValue.undef).samples = 0 := by
  refine ⟨rfl, rfl, ?_, by decide⟩
  intro hlen
  have h2 : (setOption 1 exState kWidth JSValue.undef).resizeLog.length = 2 := by decide
  exact absurd (h2.symm.trans hlen) (by decide)

set_option maxHeartbeats 1000000 in
/-- Claim C8 (amended): assigning `undefined` or `0` to `width` or `height`
raises no error and skips (or deduplicates away) that axis's dpr-scaled
`setSize` call, but the non-allow-list preamble still resets `SampleCount`
to 0 and propagates exactly one forced resize carrying the assigned value
(assuming the stored size options are not `NaN`). -/
theorem setOption_axis_zero_or_undefined (dpr : ℚ) (s : SSRState) (key : String)
    (value : JSValue)
    (hkey : key = kWidth ∨ key = kHeight)
    (hval : value = JSValue.undef ∨ value = JSValue.num 0)
    (hchange : (jsStrictEq (s.options key) value && s.needsUpdate) = false)
    (hW : notNaN (s.options kWidth)) (hH : notNaN (s.options kHeight))
    (hR : notNaN (s.options kResolutionScale))
    (hV : notNaN (s.options kVelocityResolutionScale)) :
    (setOption dpr s key value).samples = 0 ∧
    (setOption dpr s key value).resizeLog.length = s.resizeLog.length + 2 := by
  simp only [notNaN] at hW hH hR hV
  have hupdH : Function.update s.options kWidth (JSValue.num 0) kHeight
      = s.options kHeight := Function.update_noteq (by decide) _ _
  have hupdRw : Function.update s.options kWidth (JSValue.num 0) kResolutionScale
      = s.options kResolutionScale := Function.update_noteq (by decide) _ _
  have hupdVw : Function.update s.options kWidth (JSValue.num 0) kVelocityResolutionScale
      = s.options kVelocityResolutionScale := Function.update_noteq (by decide) _ _
  have hupdW : Function.update s.options kHeight (JSValue.num 0) kWidth
      = s.options kWidth := Function.update_noteq (by decide) _ _
  have hupdRh : Function.update s.options kHeight (JSValue.num 0) kResolutionScale
      = s.options kResolutionScale := Function.update_noteq (by decide) _ _
  have hupdVh : Function.update s.options kHeight (JSValue.num 0) kVelocityResolutionScale
      = s.options kVelocityResolutionScale := Function.update_noteq (by decide) _ _
  rcases hkey with h | h <;> subst h <;> rcases hval with h | h <;> subst h
  · unfold setOption
    rw [hchange]
    simp only [Bool.false_eq_true, if_false]
    rw [if_neg (show kWidth ∉ noResetSamplesProperties by decide)]
    simp only [applyCase, classifyKey_width]
    rw [if_pos (by decide)]
    exact ⟨setSize_samples _ _ _ _, by rw [setSize_forced_log]; simp⟩
  · have e : setOption dpr s kWidth (JSValue.num 0) =
        { s with
          options := Function.update s.options kWidth (JSValue.num 0),
          samples := 0,
          resizeLog := s.resizeLog ++
            [⟨SubPass.temporalResolve,
               Function.update s.options kWidth (JSValue.num 0) kWidth,
               Function.update s.options kWidth (JSValue.num 0) kHeight⟩,
             ⟨SubPass.reflections,
               Function.update s.options kWidth (JSValue.num 0) kWidth,
               Function.update s.options kWidth (JSValue.num 0) kHeight⟩],
          lastSize := ⟨Function.update s.options kWidth (JSValue.num 0) kWidth,
            Function.update s.options kWidth (JSValue.num 0) kHeight,
            Function.update s.options kWidth (JSValue.num 0) kResolutionScale,
            Function.update s.options kWidth (JSValue.num 0) kVelocityResolutionScale⟩ } := by
      unfold setOption
      rw [hchange]
      simp only [Bool.false_eq_true, if_false]
      rw [if_neg (show kWidth ∉ noResetSamplesProperties by decide)]
      simp only [applyCase, classifyKey_width]
      rw [if_neg (show ¬jsStrictEq (JSValue.num 0) JSValue.undef = true by decide)]
      rw [setSize_forced_eq]
      dsimp only
      unfold setSize
      split
      · rfl
      · next hcond =>
          refine absurd ?_ hcond
          have hm : jsMul (JSValue.num 0) dpr = JSValue.num 0 := by simp [jsMul]
          simp only [hm, Function.update_same, hupdH, hupdRw, hupdVw, hH, hR, hV,
            Bool.and_true, Bool.true_and, Bool.not_false]
          decide
    rw [e]
    exact ⟨rfl, by simp⟩
  · unfold setOption
    rw [hchange]
    simp only [Bool.false_eq_true, if_false]
    rw [if_neg (show kHeight ∉ noResetSamplesProperties by decide)]
    simp only [applyCase, classifyKey_height]
    rw [if_pos (by decide)]
    exact ⟨setSize_samples _ _ _ _, by rw [setSize_forced_log]; simp⟩
  · have e : setOption dpr s kHeight (JSValue.num 0) =
        { s with
          options := Function.update s.options kHeight (JSValue.num 0),
          samples := 0,
          resizeLog := s.resizeLog ++
            [⟨SubPass.temporalResolve,
               Function.update s.options kHeight (JSValue.num 0) kWidth,
               Function.update s.options kHeight (JSValue.num 0) kHeight⟩,
             ⟨SubPass.reflections,
               Function.update s.options kHeight (JSValue.num 0) kWidth,
               Function.update s.options kHeight (JSValue.num 0) kHeight⟩],
          lastSize := ⟨Function.update s.options kHeight (JSValue.num 0) kWidth,
            Function.update s.options kHeight (JSValue.num 0) kHeight,
            Function.update s.options kHeight (JSValue.num 0) kResolutionScale,
            Function.update s.options kHeight (JSValue.num 0) kVelocityResolutionScale⟩ } := by
      unfold setOption
      rw [hchange]
      simp only [Bool.false_eq_true, if_false]
      rw [if_neg (show kHeight ∉ noResetSamplesProperties by decide)]
      simp only [applyCase, classifyKey_height]
      rw [if_neg (show ¬jsStrictEq (JSValue.num 0) JSValue.undef = true by decide)]
      rw [setSize_forced_eq]
      dsimp only
      unfold setSize
      split
      · rfl
      · next hcond =>
          refine absurd ?_ hcond
          have hm : jsMul (JSValue.num 0) dpr = JSValue.num 0 := by simp [jsMul]
          simp only [hm, Function.update_same, hupdW, hupdRh, hupdVh, hW, hR, hV,
            Bool.and_true, Bool.true_and, Bool.not_false]
          decide
    rw [e]
    exact ⟨rfl, by simp⟩

/-- Witness for C8 (amended): assigning `undefined` to `width` at a concrete
state resets the sample counter and propagates exactly one forced resize. -/
theorem setOption_axis_zero_or_undefined_witness :
    (setOption 1 exState kWidth JSValue.undef).samples = 0 ∧
    (setOption 1 exState kWidth JSValue.undef).resizeLog.length =
      exState.resizeLog.length + 2 :=
  setOption_axis_zero_or_undefined 1 exState kWidth JSValue.undef
    (Or.inl rfl) (Or.inl rfl) (by decide) rfl rfl rfl rfl

/- ## Claim C9 -/

/-- Claim C9: calling `generateBoxProjectedEnvMapFallback`, then
`deleteeBoxProjectedEnvMapFallback`, then `generateBoxProjectedEnvMapFallback`
again with identical arguments leaves the ray marcher's shader patch, defines
and uniforms (and the `usingBoxProjectedEnvMap` flag) in exactly the state a
single `generateBoxProjectedEnvMapFallback` call with those arguments
produces. -/
theorem generate_delete_generate_idempotent (s : EnvFallbackState)
    (position size : V3) (envMapSize : ℕ) :
    generateBoxProjectedEnvMapFallback
      (deleteeBoxProjectedEnvMapFallback
        (generateBoxProjectedEnvMapFallback s position size envMapSize))
      position size envMapSize =
    generateBoxProjectedEnvMapFallback s position size envMapSize := rfl

/- ## Claim C3 -/

/-- Claim C3: the temporal blend weight at SampleCount `n` equals
`1 / (n * EULER)` (the shader's rational EULER constant); at `n = 1` it is
within `10⁻⁴` of (3679/10000); it is strictly decreasing in `n`; and it tends to 0
as `n` tends to infinity. -/
theorem tempBlendWeight_law :
    (∀ n : ℕ, 1 ≤ n → tempBlendWeight n = 1 / (n * EULER)) ∧
    |tempBlendWeight 1 - (3679/10000)| < 1 / 10000 ∧
    (∀ m n : ℕ, 1 ≤ m → m < n → tempBlendWeight n < tempBlendWeight m) ∧
    Filter.Tendsto (fun n : ℕ => ((tempBlendWeight n : ℚ) : ℝ))
      Filter.atTop (nhds 0) := by
  have hE : (0 : ℚ) < EULER := by norm_num [EULER]
  refine ⟨fun n _ => div_div 1 _ _, ?_, ?_, ?_⟩
  · rw [abs_sub_lt_iff]
    constructor <;> norm_num [tempBlendWeight, EULER]
  · intro m n hm hmn
    have hm' : (0 : ℚ) < m := by exact_mod_cast Nat.lt_of_lt_of_le Nat.zero_lt_one hm
    have hmn' : (m : ℚ) < n := by exact_mod_cast hmn
    unfold tempBlendWeight
    rw [div_div, div_div]
    exact one_div_lt_one_div_of_lt (mul_pos hm' hE)
      (mul_lt_mul_of_pos_right hmn' hE)
  · have h4 := tendsto_one_div_atTop_nhds_zero_nat.mul_const
      ((((EULER : ℚ) : ℝ))⁻¹)
    rw [zero_mul] at h4
    refine Filter.Tendsto.congr (fun n => ?_) h4
    simp only [tempBlendWeight]
    push_cast
    ring

/-- Witness for C3: the weight strictly decreases from `n = 1` to `n = 2`,
and at `n = 1` it equals `1 / (1 * EULER)`. -/
theorem tempBlendWeight_law_witness :
    tempBlendWeight ((2 : ℕ) : ℚ) < tempBlendWeight ((1 : ℕ) : ℚ) ∧
    tempBlendWeight ((1 : ℕ) : ℚ) = 1 / (((1 : ℕ) : ℚ) * EULER) :=
  ⟨tempBlendWeight_law.2.2.1 1 2 (le_refl 1) (by norm_num),
   tempBlendWeight_law.1 1 (le_refl 1)⟩

/- ## Claims C1 and C2 -/

/-- A concrete fragment coordinate. -/
def cUvHalf : GVec2 := ⟨1/2, 1/2⟩

/-- An all-zero input buffer. -/
def cBufZero : GVec2 → GVec4 := fun _ => ⟨0, 0, 0, 0⟩

/-- A constant bright history buffer with confidence 1/2. -/
def cBufOnes : GVec2 → GVec4 := fun _ => ⟨1, 1, 1, 1/2⟩

/-- A zero velocity buffer. -/
def cVelZero : GVec2 → GVec2 := fun _ => ⟨0, 0⟩

/-- A constant velocity of a quarter screen in u. -/
def cVelQuarter : GVec2 → GVec2 := fun _ => ⟨1/4, 0⟩

/-- A history buffer that is red at `cUvHalf` and black elsewhere; in
particular it is black at the reprojected coordinate `cUvHalf - (1/4, 0)`. -/
def cexLastBuf : GVec2 → GVec4 := fun uv =>
  if uv = cUvHalf then ⟨1, 0, 0, 0⟩ else ⟨0, 0, 0, 0⟩

/-- A history buffer that is red at `cUvHalf` and half-red at the reprojected
coordinate `(1/4, 1/2)`, black elsewhere. -/
def cexLastBuf2 : GVec2 → GVec4 := fun uv =>
  if uv = cUvHalf then ⟨1, 0, 0, 0⟩
  else if uv = (⟨1/4, 1/2⟩ : GVec2) then ⟨1/2, 0, 0, 0⟩
  else ⟨0, 0, 0, 0⟩

/-- Counterexample to C1 as stated: with history (1,0,0) at the current UV,
(1/2,0,0) at the reprojected UV, zero input and SampleCount 1, neither color
is near-zero, yet the resolved color is not
`mix(previousReprojectedColor, currentSampleColor, 1/(1 * EULER))` - the
shader blends against the average of the two history reads instead. -/
theorem composeTemporal_standard_blend_counterexample :
    length3Lt ((cexLastBuf2 (reprojectedUv cVelQuarter cUvHalf)).rgb) (1/1000) = false ∧
    length3Lt (avgPrevColor cexLastBuf2 cVelQuarter cUvHalf) (1/1000) = false ∧
    (composeTemporal cBufZero cexLastBuf2 cVelQuarter 1 cUvHalf).rgb ≠
      mix3 ((cexLastBuf2 (reprojectedUv cVelQuarter cUvHalf)).rgb)
        ((cBufZero cUvHalf).rgb) (1 / (1 * EULER)) := by
  norm_num [length3Lt, avgPrevColor, reprojectedUv, cexLastBuf2, cVelQuarter,
    cUvHalf, cBufZero, composeTemporal, mix3, mix1, addV3, tempBlendWeight,
    EULER, GVec4.rgb, GVec2.mk.injEq, GVec3.mk.injEq]

/-- Claim C1 (amended): in temporal mode with SampleCount `n ≥ 1`, the
resolver samples the previous accumulation buffer both at `currentUV` and at
`currentUV - velocity(currentUV)` and averages the two colors; for every
pixel whose averaged history color is not below the disocclusion threshold,
resolved color = `mix(averagedPreviousColor, currentSampleColor, w)` with
`w = 1/(n * EULER)`, and resolved confidence =
`mix(previousConfidenceAtCurrentUV, currentConfidence + 0.5, w)`. -/
theorem composeTemporal_standard_blend (inputBuffer lastBuffer : GVec2 → GVec4)
    (velocityBuffer : GVec2 → GVec2) (n : ℕ) (_hn : 1 ≤ n) (uv : GVec2)
    (hocc : length3Lt (avgPrevColor lastBuffer velocityBuffer uv) (1/1000) = false) :
    (composeTemporal inputBuffer lastBuffer velocityBuffer (n : ℚ) uv).rgb =
      mix3 (avgPrevColor lastBuffer velocityBuffer uv) ((inputBuffer uv).rgb)
        (1 / ((n : ℚ) * EULER)) ∧
    (composeTemporal inputBuffer lastBuffer velocityBuffer (n : ℚ) uv).a =
      mix1 ((lastBuffer uv).a) ((inputBuffer uv).a + 1/2)
        (1 / ((n : ℚ) * EULER)) := by
  have hw : tempBlendWeight ((n : ℚ)) = 1 / ((n : ℚ) * EULER) := div_div 1 _ _
  simp only [composeTemporal, hocc, Bool.false_eq_true, if_false, hw]
  refine ⟨?_, ?_⟩ <;> first | rfl | trivial

/-- Witness for C1 (amended): constant bright history, zero input,
SampleCount 1. -/
theorem composeTemporal_standard_blend_witness :
    (composeTemporal cBufZero cBufOnes cVelZero ((1 : ℕ) : ℚ) cUvHalf).rgb =
      mix3 (avgPrevColor cBufOnes cVelZero cUvHalf) ((cBufZero cUvHalf).rgb)
        (1 / (((1 : ℕ) : ℚ) * EULER)) ∧
    (composeTemporal cBufZero cBufOnes cVelZero ((1 : ℕ) : ℚ) cUvHalf).a =
      mix1 ((cBufOnes cUvHalf).a) ((cBufZero cUvHalf).a + 1/2)
        (1 / (((1 : ℕ) : ℚ) * EULER)) :=
  composeTemporal_standard_blend cBufZero cBufOnes cVelZero 1 (le_refl 1)
    cUvHalf (by
      norm_num [length3Lt, avgPrevColor, reprojectedUv, cBufOnes, cVelZero,
        cUvHalf, GVec4.rgb])

/-- Counterexample to C2 as stated: the previous *reprojected* color is
exactly black (length 0 < (1/1000)), yet with a bright history texel at the
current UV the shader takes the standard blend - the disocclusion test is on
the *averaged* history color, which is (1/2, 0, 0) here - so the resolved
color differs from `mix(previousColor, previousColor + currentColor, 0.25)`
for either reading of `previousColor`. -/
theorem composeTemporal_disocclusion_counterexample :
    length3Lt ((cexLastBuf (reprojectedUv cVelQuarter cUvHalf)).rgb) (1/1000) = true ∧
    (composeTemporal cBufZero cexLastBuf cVelQuarter 1 cUvHalf).rgb ≠
      mix3 ((cexLastBuf (reprojectedUv cVelQuarter cUvHalf)).rgb)
        (addV3 ((cexLastBuf (reprojectedUv cVelQuarter cUvHalf)).rgb)
          ((cBufZero cUvHalf).rgb)) (1/4) ∧
    (composeTemporal cBufZero cexLastBuf cVelQuarter 1 cUvHalf).rgb ≠
      mix3 ((cexLastBuf cUvHalf).rgb)
        (addV3 ((cexLastBuf cUvHalf).rgb) ((cBufZero cUvHalf).rgb)) (1/4) := by
  norm_num [length3Lt, avgPrevColor, reprojectedUv, cexLastBuf, cVelQuarter,
    cUvHalf, cBufZero, composeTemporal, mix3, mix1, addV3, tempBlendWeight,
    EULER, GVec4.rgb, GVec2.mk.injEq, GVec3.mk.injEq]

/-- Claim C2 (amended): in temporal mode, whenever the *averaged* history
color - the mean of the previous buffer's colors at `currentUV` and at
`currentUV - velocity(currentUV)` - has length below 0.001, the resolved
color equals `mix(averagedColor, averagedColor + currentColor, 0.25)` instead
of the standard blend formula. -/
theorem composeTemporal_disocclusion (inputBuffer lastBuffer : GVec2 → GVec4)
    (velocityBuffer : GVec2 → GVec2) (samples : ℚ) (uv : GVec2)
    (hocc : length3Lt (avgPrevColor lastBuffer velocityBuffer uv) (1/1000) = true) :
    (composeTemporal inputBuffer lastBuffer velocityBuffer samples uv).rgb =
      mix3 (avgPrevColor lastBuffer velocityBuffer uv)
        (addV3 (avgPrevColor lastBuffer velocityBuffer uv) ((inputBuffer uv).rgb))
        (1/4) := by
  simp only [composeTemporal, hocc, if_true]
  rfl

/-- Witness for C2 (amended): all-black history and input. -/
theorem composeTemporal_disocclusion_witness :
    (composeTemporal cBufZero cBufZero cVelZero 1 cUvHalf).rgb =
      mix3 (avgPrevColor cBufZero cVelZero cUvHalf)
        (addV3 (avgPrevColor cBufZero cVelZero cUvHalf) ((cBufZero cUvHalf).rgb))
        (1/4) :=
  composeTemporal_disocclusion cBufZero cBufZero cVelZero 1 cUvHalf (by
    norm_num [length3Lt, avgPrevColor, reprojectedUv, cBufZero, cVelZero,
      cUvHalf, GVec4.rgb])
